import Mathlib

/-!
Verification development for the clipsync daemon core.

Each Rust function of the repository that a claim touches is shallowly
embedded as an executable Lean definition.  Byte strings are lists of
naturals.  External crates (arboard, age, zstd, the image and png codecs,
serde_json, the relay SDK) are not code of this repository; where a claim
depends on them they appear as explicit function parameters, or as a
modelled stand-in whose doc comment cites the documented contract of the
crate.  All state that the Rust code keeps in locals or mutexes is passed
explicitly through step functions.
-/

namespace Clipsync

/-- Byte strings of the Rust code, modelled as lists of naturals. -/
abbrev Bytes := List Nat

/-- Mirrors enum ClipboardPayload in src/payload.rs lines 4 to 13.
Text carries the UTF-8 bytes of the Rust String; a file entry is a pair of
name bytes and data bytes. -/
inductive ClipboardPayload where
  | text (s : Bytes)
  | image (width height : Nat) (pngData : Bytes)
  | files (entries : List (Bytes × Bytes))
  deriving Repr, DecidableEq

/-- Mirrors ClipboardPayload.content_type_str in src/payload.rs lines 30 to 36. -/
def contentTypeStr : ClipboardPayload → String
  | .text _ => "text"
  | .image _ _ _ => "image"
  | .files _ => "files"

namespace Payload

/-- Number of bytes the image crate requires for a w by h RGBA buffer:
4 channels per pixel.  Mirrors image_buffer_len of the image crate for the
Rgba pixel type (overflow cannot occur over Nat). -/
def imageBufferLen (w h : Nat) : Nat := 4 * w * h

/-- Models the success condition of ImageBuffer::from_raw, called by
rgba_to_png in src/payload.rs line 41.  Per the documented contract of the
image crate, from_raw returns None exactly when the container is not big
enough, i.e. it succeeds whenever the buffer length is at least 4*w*h. -/
def fromRawOk (w h : Nat) (buf : Bytes) : Bool :=
  decide (imageBufferLen w h ≤ buf.length)

/-- Mirrors rgba_to_png in src/payload.rs lines 40 to 47.  The PNG encoder of
the external image crate is the parameter pngEncode; the length check is the
from_raw call.  On a failed from_raw the function returns the error context
string of line 42. -/
def rgba_to_png (pngEncode : Nat → Nat → Bytes → Except String Bytes)
    (rgba : Bytes) (w h : Nat) : Except String Bytes :=
  if fromRawOk w h rgba then pngEncode w h rgba
  else .error "Invalid RGBA data dimensions"

/-- Modelled stand-in for the PNG encoder of the external image crate used by
rgba_to_png: the PNG format forbids zero-size images, so encoding fails for a
zero dimension and succeeds otherwise; the produced byte stream is abstracted
as the dimensions followed by the pixel bytes. -/
def pngEncodeTotal (w h : Nat) (rgba : Bytes) : Except String Bytes :=
  if w = 0 || h = 0 then .error "Failed to encode PNG"
  else .ok (w :: h :: rgba)

end Payload

namespace Crypto

/-- Mirrors crypto::encrypt in src/crypto.rs lines 82 to 107: the plaintext is
first compressed with zstd at level 3 and the compressed bytes are then
age-encrypted for the recipients.  zstdEncodeAll models zstd::encode_all
(its first argument is the level) and ageEncrypt models the age recipient
encryption with the fixed recipient list of the call site. -/
def encrypt (zstdEncodeAll : Nat → Bytes → Except String Bytes)
    (ageEncrypt : Bytes → Except String Bytes) (data : Bytes) :
    Except String Bytes :=
  match zstdEncodeAll 3 data with
  | .error e => .error e
  | .ok compressed => ageEncrypt compressed

/-- Mirrors crypto::decrypt in src/crypto.rs lines 109 to 126: the ciphertext
is age-decrypted with the identity and the result is zstd-decompressed.
ageDecrypt models the age decryption with the fixed identity of the call
site and zstdDecodeAll models zstd::decode_all. -/
def decrypt (ageDecrypt : Bytes → Except String Bytes)
    (zstdDecodeAll : Bytes → Except String Bytes) (encrypted : Bytes) :
    Except String Bytes :=
  match ageDecrypt encrypted with
  | .error e => .error e
  | .ok decrypted => zstdDecodeAll decrypted

end Crypto

/-- External primitives used by the clipboard worker thread of
src/daemon/clipboard.rs: the std DefaultHasher based hash_bytes of lines 20
to 24, and the PNG conversions of src/payload.rs (whose pixel codecs live in
the external image crate). -/
structure ClipExt where
  hashBytes : Bytes → Nat
  pngToRgba : Bytes → Except String (Nat × Nat × Bytes)
  rgbaToPng : Bytes → Nat → Nat → Except String Bytes

/-- The two hashes owned by the clipboard worker: last_hash of
src/daemon/clipboard.rs line 47 and the shared last_written_hash of line 32. -/
structure ClipState where
  lastHash : Option Nat
  lastWritten : Option Nat
  deriving Repr, DecidableEq

/-- An attempted write to the OS clipboard performed by the worker. -/
inductive OsWrite where
  | setText (s : Bytes)
  | setImage (w h : Nat) (rgba : Bytes)
  deriving Repr, DecidableEq

/-- Content of the OS clipboard as seen through arboard: an optional
non-structured text and an optional RGBA image with its dimensions. -/
structure OsClipboard where
  text : Option Bytes
  image : Option (Nat × Nat × Bytes)

/-- Image half of read_clipboard, src/daemon/clipboard.rs lines 160 to 176:
convert the RGBA of the OS clipboard to PNG, dropping the read if the
conversion fails. -/
def readClipboardImage (E : ClipExt) (os : OsClipboard) :
    Option ClipboardPayload :=
  match os.image with
  | some (w, h, rgba) =>
    match E.rgbaToPng rgba w h with
    | .ok png => some (.image w h png)
    | .error _ => none
  | none => none

/-- Mirrors read_clipboard in src/daemon/clipboard.rs lines 151 to 179:
non-empty text wins, otherwise an image is converted to PNG, otherwise
nothing is read. -/
def readClipboard (E : ClipExt) (os : OsClipboard) : Option ClipboardPayload :=
  match os.text with
  | some s => if s = [] then readClipboardImage E os else some (.text s)
  | none => readClipboardImage E os

/-- Mirrors the SetClipboard command arm of the worker,
src/daemon/clipboard.rs lines 54 to 92.  For text, both hashes become the
hash of the text bytes and the text is written to the OS.  For an image, the
PNG is decoded to RGBA; on success both hashes become the hash of the RGBA
bytes and the RGBA is written; on a failed decode nothing changes.  File
payloads are only logged.  Returns the new hash state and the attempted OS
writes. -/
def setClipboardCommand (E : ClipExt) (st : ClipState) (p : ClipboardPayload) :
    ClipState × List OsWrite :=
  match p with
  | .text s =>
    let hs := E.hashBytes s
    ({ lastHash := some hs, lastWritten := some hs }, [OsWrite.setText s])
  | .image _ _ png =>
    match E.pngToRgba png with
    | .ok (w, h, rgba) =>
      let hs := E.hashBytes rgba
      ({ lastHash := some hs, lastWritten := some hs }, [OsWrite.setImage w h rgba])
    | .error _ => (st, [])
  | .files _ => (st, [])

/-- Hash the worker computes for a polled payload,
src/daemon/clipboard.rs lines 103 to 111: text hashes its bytes, an image
hashes the freshly encoded PNG bytes, files hash to 0. -/
def pollHash (E : ClipExt) : ClipboardPayload → Nat
  | .text s => E.hashBytes s
  | .image _ _ png => E.hashBytes png
  | .files _ => 0

/-- One poll iteration of the worker, src/daemon/clipboard.rs lines 101 to
142: read the clipboard; if the hash differs from last_hash, either emit a
Changed event (when the hash is not the last written one) or suppress the
echo and clear last_written_hash; in both cases last_hash becomes the
current hash.  Returns the new state and the emitted payload, if any. -/
def pollStep (E : ClipExt) (st : ClipState) (os : OsClipboard) :
    ClipState × Option ClipboardPayload :=
  match readClipboard E os with
  | none => (st, none)
  | some p =>
    let ch := pollHash E p
    let shouldNotify : Bool :=
      match st.lastHash with
      | some prev => prev != ch
      | none => true
    if shouldNotify then
      let wasWritten : Bool := st.lastWritten == some ch
      if wasWritten then
        ({ lastHash := some ch, lastWritten := none }, none)
      else
        ({ lastHash := some ch, lastWritten := st.lastWritten }, some p)
    else (st, none)

/-- Mirrors the content type enum of the relay bindings used by the client
code of src/daemon/mod.rs (the client side module_bindings enum has a Files
variant, constructed at src/daemon/mod.rs line 135). -/
inductive ClipContentType where
  | text
  | image
  | files
  deriving Repr, DecidableEq

/-- Mirrors the CurrentClip row of the relay bindings (table CurrentClip of
src/server/src/lib.rs lines 71 to 80); timestamps are naturals. -/
structure CurrentClip where
  userId : Nat
  senderDeviceId : String
  contentType : ClipContentType
  encryptedData : Bytes
  sizeBytes : Nat
  updatedAt : Nat
  deriving Repr, DecidableEq

/-- Mirrors DeviceView of src/server/src/lib.rs lines 63 to 69. -/
structure DeviceView where
  id : Nat
  deviceId : String
  deviceName : String
  registeredAt : Nat
  deriving Repr, DecidableEq

/-- Mirrors the data carried by enum SpacetimeCommand of
src/daemon/spacetime.rs lines 34 to 58, with the user_id fields that the
send sites of src/daemon/mod.rs attach to the query commands; reply channels
are not data and are modelled at the receiving end. -/
inductive SpacetimeCommand where
  | syncClip (deviceId : String) (contentType : ClipContentType)
      (encryptedData : Bytes) (sizeBytes : Nat)
  | registerDevice (deviceId deviceName : String)
  | listDevices (userId : Nat)
  | getCurrentClip (userId : Nat)
  | getUsername (userId : Nat)
  | createInviteCode (code : String)
  deriving Repr, DecidableEq

/-- Mirrors the data of enum ClipboardCommand in src/daemon/clipboard.rs
lines 15 to 18. -/
inductive ClipboardCommand where
  | setClipboardCmd (payload : ClipboardPayload)
  | readClipboardCmd
  deriving Repr, DecidableEq

/-- Mirrors enum Request of src/protocol.rs lines 6 to 14. -/
inductive Request where
  | status
  | copy (data : Option Bytes)
  | paste
  | listDevices
  | createInvite (code : String)
  | shutdown
  deriving Repr, DecidableEq

/-- Mirrors struct DeviceInfo of src/protocol.rs lines 16 to 21. -/
structure DeviceInfo where
  id : Nat
  deviceId : String
  deviceName : String
  deriving Repr, DecidableEq

/-- Mirrors enum Response of src/protocol.rs lines 23 to 46. -/
inductive Response where
  | ok
  | status (connected : Bool) (username : Option String) (userId : Option Nat)
      (deviceId : String) (watching : Bool)
  | clipData (contentType : String) (data : Bytes)
  | devices (devices : List DeviceInfo)
  | inviteCreated (code : String)
  | error (message : String)
  deriving Repr, DecidableEq

/-- The coordinator state locals of run_daemon, src/daemon/mod.rs lines 49
and 50. -/
structure CoordState where
  connected : Bool
  watching : Bool
  deriving Repr, DecidableEq

/-- External primitives and oneshot reply outcomes seen by the coordinator of
src/daemon/mod.rs.  decrypt and encrypt are crypto::decrypt and
crypto::encrypt with the single local age identity and recipient fixed;
serialize and deserialize are the bincode codec of ClipboardPayload;
utf8Lossy is String::from_utf8_lossy; hasIdentity is whether the age
identity loaded.  A recv field of value none models a failed oneshot await;
clipSendOk is the send result of the ReadClipboard command. -/
structure CoordExt where
  decrypt : Bytes → Except String Bytes
  encrypt : Bytes → Except String Bytes
  serialize : ClipboardPayload → Except String Bytes
  deserialize : Bytes → Except String ClipboardPayload
  utf8Lossy : Bytes → Bytes
  hasIdentity : Bool
  usernameRecv : Option (Option String)
  clipRecv : Option (Option CurrentClip)
  devicesRecv : Option (List DeviceView)
  readClipRecv : Option (Option ClipboardPayload)
  clipSendOk : Bool

/-- Mirrors the ClipUpdated arm of the coordinator event loop,
src/daemon/mod.rs lines 90 to 113: a clip whose sender_device_id equals the
own device_id is skipped; otherwise, when an identity is loaded, the clip is
decrypted and deserialized and a SetClipboard command is sent; failures are
only logged.  Returns the coordinator state and the clipboard commands
sent. -/
def onClipUpdated (E : CoordExt) (st : CoordState) (deviceId : String)
    (clip : CurrentClip) : CoordState × List ClipboardCommand :=
  if clip.senderDeviceId = deviceId then (st, [])
  else if E.hasIdentity then
    match E.decrypt clip.encryptedData with
    | .ok plaintext =>
      match E.deserialize plaintext with
      | .ok payload => (st, [ClipboardCommand.setClipboardCmd payload])
      | .error _ => (st, [])
    | .error _ => (st, [])
  else (st, [])

/-- Content type tag the coordinator attaches to an outgoing clip,
src/daemon/mod.rs lines 132 to 136 and 260 to 264. -/
def contentTypeOf : ClipboardPayload → ClipContentType
  | .text _ => .text
  | .image _ _ _ => .image
  | .files _ => .files

/-- Outcome of handle_request: a reply written to the oneshot channel, or
process exit (the Shutdown arm calls process::exit). -/
inductive HandleOutcome where
  | reply (r : Response)
  | exitProcess
  deriving Repr, DecidableEq

/-- Tail of the Copy arm of handle_request, src/daemon/mod.rs lines 247 to
286: once a payload is in hand, check the connection, then serialize,
encrypt and send SyncClip.  clipCmds are the clipboard commands already sent
while obtaining the payload. -/
def copyContinue (E : CoordExt) (connected : Bool) (deviceId : String)
    (p : ClipboardPayload) (clipCmds : List ClipboardCommand) :
    HandleOutcome × List SpacetimeCommand × List ClipboardCommand :=
  if connected = false then
    (.reply (.error "Not connected to SpacetimeDB"), [], clipCmds)
  else if E.hasIdentity then
    match E.serialize p with
    | .ok data =>
      match E.encrypt data with
      | .ok encrypted =>
        (.reply .ok,
          [SpacetimeCommand.syncClip deviceId (contentTypeOf p) encrypted data.length],
          clipCmds)
      | .error e => (.reply (.error ("Encryption failed: " ++ e)), [], clipCmds)
    | .error e => (.reply (.error ("Serialization failed: " ++ e)), [], clipCmds)
  else
    (.reply (.error "No encryption key configured. Run `clipsync setup`."), [], clipCmds)

/-- Bytes returned for a pasted payload, src/daemon/mod.rs lines 308 to 326:
text bytes, PNG bytes, or the serialized file payload. -/
def pasteData (E : CoordExt) : ClipboardPayload → Except String Bytes
  | .text s => .ok s
  | .image _ _ png => .ok png
  | .files fs => E.serialize (.files fs)

/-- Mirrors handle_request of src/daemon/mod.rs lines 188 to 384.  The result
is the outcome together with the relay commands and clipboard commands sent
while handling.  The match of the source has no arm for
Request::CreateInvite although src/protocol.rs declares that variant (and
src/cli/invite.rs sends it); the missing arm is embedded as none. -/
def handleRequest (E : CoordExt) (connected : Bool) (userId : Nat)
    (deviceId : String) (watching : Bool) :
    Request → Option (HandleOutcome × List SpacetimeCommand × List ClipboardCommand)
  | .status =>
    let username : Option String :=
      match E.usernameRecv with
      | some u => u
      | none => none
    some (.reply (.status connected username (some userId) deviceId watching),
      [SpacetimeCommand.getUsername userId], [])
  | .copy data =>
    match data with
    | some d =>
      some (copyContinue E connected deviceId (.text (E.utf8Lossy d)) [])
    | none =>
      if E.clipSendOk = false then
        some (.reply (.error "Clipboard thread not available"), [], [])
      else
        match E.readClipRecv with
        | some (some p) =>
          some (copyContinue E connected deviceId p [ClipboardCommand.readClipboardCmd])
        | some none =>
          some (.reply (.error "Clipboard is empty"), [],
            [ClipboardCommand.readClipboardCmd])
        | none =>
          some (.reply (.error "Clipboard read failed"), [],
            [ClipboardCommand.readClipboardCmd])
  | .paste =>
    if connected = false then
      some (.reply (.error "Not connected to SpacetimeDB"), [], [])
    else
      match E.clipRecv with
      | some (some clip) =>
        (if E.hasIdentity then
          match E.decrypt clip.encryptedData with
          | .ok plaintext =>
            match E.deserialize plaintext with
            | .ok payload =>
              match pasteData E payload with
              | .ok d =>
                some (.reply (.clipData (contentTypeStr payload) d),
                  [SpacetimeCommand.getCurrentClip userId], [])
              | .error e =>
                some (.reply (.error ("Failed to serialize files: " ++ e)),
                  [SpacetimeCommand.getCurrentClip userId], [])
            | .error e =>
              some (.reply (.error ("Failed to deserialize clip: " ++ e)),
                [SpacetimeCommand.getCurrentClip userId], [])
          | .error e =>
            some (.reply (.error ("Failed to decrypt clip: " ++ e)),
              [SpacetimeCommand.getCurrentClip userId], [])
        else
          some (.reply (.error "No encryption key configured"),
            [SpacetimeCommand.getCurrentClip userId], []))
      | some none =>
        some (.reply (.error "No clip available"),
          [SpacetimeCommand.getCurrentClip userId], [])
      | none =>
        some (.reply (.error "Failed to get clip from SpacetimeDB"),
          [SpacetimeCommand.getCurrentClip userId], [])
  | .listDevices =>
    match E.devicesRecv with
    | some ds =>
      some (.reply (.devices (ds.map fun d => DeviceInfo.mk d.id d.deviceId d.deviceName)),
        [SpacetimeCommand.listDevices userId], [])
    | none =>
      some (.reply (.error "Failed to list devices"),
        [SpacetimeCommand.listDevices userId], [])
  | .createInvite _ => none
  | .shutdown => some (.exitProcess, [], [])

/-- Mirrors the GetCurrentClip arm of handle_command,
src/daemon/spacetime.rs lines 216 to 219: the reply is the first row of the
local my_current_clip view (zero or one row per user). -/
def relayGetCurrentClip (view : List CurrentClip) : Option CurrentClip :=
  view.head?

/-- Phase of the relay thread of spawn_spacetime_thread,
src/daemon/spacetime.rs lines 77 to 183: either the inner command loop is
running on the connection of a given build generation, or the outer loop is
between connections. -/
inductive RelayPhase where
  | inner (gen : Nat)
  | reconnecting
  deriving Repr, DecidableEq

/-- Relay thread state: phase, generation of the most recent build, and the
pending commands of the unbounded crossbeam channel (FIFO). -/
structure RelayState where
  phase : RelayPhase
  gen : Nat
  queue : List SpacetimeCommand
  deriving Repr, DecidableEq

/-- Events of the relay thread model: the coordinator enqueues a command; the
inner loop receives and handles the queue head (src/daemon/spacetime.rs line
169); a timeout tick observes the disconnected flag and breaks the inner
loop (lines 170 to 175); the outer loop rebuilds the connection with success
or failure (lines 148 to 155). -/
inductive RelayEvent where
  | send (c : SpacetimeCommand)
  | recv
  | disconnectBreak
  | rebuildOk
  | rebuildFail
  deriving Repr, DecidableEq

/-- One transition of the relay thread.  Returns the new state and the
commands executed, each paired with the build generation of the connection
it was executed against.  Nothing ever removes a command from the channel
except a recv that handles it. -/
def relayStep (s : RelayState) (e : RelayEvent) :
    RelayState × List (SpacetimeCommand × Nat) :=
  match e with
  | .send c => ({ s with queue := s.queue ++ [c] }, [])
  | .recv =>
    match s.phase with
    | .inner g =>
      match s.queue with
      | [] => (s, [])
      | c :: rest => ({ s with queue := rest }, [(c, g)])
    | .reconnecting => (s, [])
  | .disconnectBreak =>
    match s.phase with
    | .inner _ => ({ s with phase := .reconnecting }, [])
    | .reconnecting => (s, [])
  | .rebuildOk =>
    match s.phase with
    | .reconnecting =>
      ({ s with phase := .inner (s.gen + 1), gen := s.gen + 1 }, [])
    | .inner _ => (s, [])
  | .rebuildFail => (s, [])

/-- Run of the relay thread model over a list of events, accumulating the
executed commands in order. -/
def relayRun (s : RelayState) : List RelayEvent → RelayState × List (SpacetimeCommand × Nat)
  | [] => (s, [])
  | e :: rest =>
    let (s1, out1) := relayStep s e
    let (s2, out2) := relayRun s1 rest
    (s2, out1 ++ out2)

/-- Backoff update of the outer reconnection loop of
src/daemon/spacetime.rs: on a successful build the backoff is reset to
INITIAL_BACKOFF = 1 second (line 164); on a failed build it becomes
min(backoff * 2, 60) seconds (line 152).  Durations are in seconds. -/
def backoffStep (b : Nat) (buildOk : Bool) : Nat :=
  if buildOk then 1 else min (b * 2) 60

/-- Sleeps performed before each connection attempt of the outer loop of
spawn_spacetime_thread, src/daemon/spacetime.rs lines 77 to 91 and 148 to
164, as a function of the build outcomes of the successive attempts.  The
first attempt is not preceded by a sleep (none); every later attempt is
preceded by a sleep of the current backoff.  After a successful build the
inner loop runs until a disconnect sends the thread back to the top of the
outer loop. -/
def sleepsFrom (b : Nat) (first : Bool) : List Bool → List (Option Nat)
  | [] => []
  | o :: rest =>
    (if first then none else some b) :: sleepsFrom (backoffStep b o) false rest

/-- Backoff value reached after i consecutive failed builds starting from
backoff b. -/
def failIter (b : Nat) : Nat → Nat
  | 0 => b
  | i + 1 => failIter (min (b * 2) 60) i

/-- External primitives seen by one connection task of the IPC server,
src/daemon/socket.rs lines 121 to 197.  parseRequest models
serde_json::from_slice on a received frame; coordinatorOpen is whether the
coordinator request channel still accepts sends and delivers a reply (the
reply for request r being coordReply r); writeOk is whether a framed send on
the socket succeeds.  Serialization of a Response with serde_json is total
for this data and is not modelled as fallible. -/
structure SockEnv where
  parseRequest : Bytes → Except String Request
  coordinatorOpen : Bool
  coordReply : Request → Response
  writeOk : Bool

/-- One iteration input of the per-connection read loop: the idle timeout
fired, the stream ended, the read failed, or a frame arrived. -/
inductive FrameInput where
  | timeout
  | eof
  | readErr
  | frame (bytes : Bytes)
  deriving Repr, DecidableEq

/-- Concrete clipboard externals with a failing PNG decoder, used by
witnesses. -/
def clipExtErr : ClipExt :=
  ⟨fun b => b.length, fun _ => .error "Failed to decode PNG", fun _ _ _ => .ok []⟩

/-- Concrete clipboard externals for the image echo witness: the hash is the
byte count, the PNG decoder yields a 1 by 1 RGBA buffer of four bytes, and
the PNG encoder yields a five byte stream, so the encoder output and the
RGBA hash to different values, as with the real SipHash over distinct
byte strings. -/
def clipExtLeak : ClipExt :=
  ⟨fun b => b.length, fun _ => .ok (1, 1, [0, 0, 0, 0]), fun _ _ _ => .ok [9, 9, 9, 9, 9]⟩

/-- Concrete coordinator externals used by witnesses: identity codecs, a
loaded age identity, and a GetCurrentClip reply carrying an empty view. -/
def coordExtW : CoordExt where
  decrypt := fun b => .ok b
  encrypt := fun b => .ok b
  serialize := fun _ => .ok []
  deserialize := fun _ => .ok (.text [])
  utf8Lossy := fun b => b
  hasIdentity := true
  usernameRecv := none
  clipRecv := some none
  devicesRecv := none
  readClipRecv := none
  clipSendOk := true

/-- One iteration of the per-connection loop of run_socket_server,
src/daemon/socket.rs lines 126 to 197.  Returns the responses written on the
connection and whether the loop continues (true) or the connection closes
(false).  A frame that does not parse as a Request is answered with an
Error response and the loop continues unconditionally (the send result is
discarded at line 153); a parsed request is forwarded to the coordinator:
a closed coordinator channel or a dropped reply breaks the loop, otherwise
the reply is written back, breaking only if the socket write fails. -/
def connStep (E : SockEnv) : FrameInput → List Response × Bool
  | .timeout => ([], false)
  | .eof => ([], false)
  | .readErr => ([], false)
  | .frame b =>
    match E.parseRequest b with
    | .error e => ([Response.error ("Invalid request: " ++ e)], true)
    | .ok req =>
      if E.coordinatorOpen then
        if E.writeOk then ([E.coordReply req], true) else ([], false)
      else ([], false)

/-- Concrete socket environment whose parser rejects every frame, used by
witnesses. -/
def sockEnvW : SockEnv :=
  ⟨fun _ => .error "x", true, fun _ => Response.ok, true⟩

/-- Element i of the sleep list after i consecutive failed builds, starting
from backoff b with the first-attempt flag already cleared. -/
theorem sleepsFrom_get_replicate (i : Nat) :
    ∀ (b : Nat) (o : Bool) (rest : List Bool),
      (sleepsFrom b false (List.replicate i false ++ o :: rest)).get? i
        = some (some (failIter b i)) := by
  induction i with
  | zero => intro b o rest; rfl
  | succ n ih =>
    intro b o rest
    have h1 : List.replicate (n + 1) false ++ o :: rest
        = false :: (List.replicate n false ++ o :: rest) := by
      simp [List.replicate_succ]
    rw [h1]
    have h2 : (sleepsFrom b false (false :: (List.replicate n false ++ o :: rest))).get? (n + 1)
        = (sleepsFrom (backoffStep b false) false (List.replicate n false ++ o :: rest)).get? n := rfl
    rw [h2, ih]
    rfl

/-- The backoff after i consecutive failed builds from a value at most 60 is
the doubled value capped at 60. -/
theorem failIter_min (i : Nat) : ∀ b : Nat, b ≤ 60 → failIter b i = min (b * 2 ^ i) 60 := by
  induction i with
  | zero =>
    intro b hb
    simp [failIter, Nat.min_eq_left hb]
  | succ n ih =>
    intro b hb
    show failIter (min (b * 2) 60) n = min (b * 2 ^ (n + 1)) 60
    rcases le_or_lt (b * 2) 60 with h | h
    · rw [min_eq_left h, ih (b * 2) h]
      congr 1
      rw [pow_succ]
      ring
    · rw [min_eq_right (le_of_lt h), ih 60 le_rfl]
      have h3 : (1 : Nat) ≤ 2 ^ n := Nat.one_le_two_pow
      have h1 : (60 : Nat) ≤ 60 * 2 ^ n :=
        le_mul_of_one_le_right (Nat.zero_le _) h3
      have h2 : (60 : Nat) ≤ b * 2 ^ (n + 1) := by
        calc (60 : Nat) ≤ b * 2 := le_of_lt h
          _ ≤ b * 2 * 2 ^ n := le_mul_of_one_le_right (Nat.zero_le _) h3
          _ = b * 2 ^ (n + 1) := by rw [pow_succ]; ring
      rw [min_eq_right h1, min_eq_right h2]

/-- C1: the claim says a SetClipboard write (text or image) is never followed
by a ClipboardChanged for the same content until the OS clipboard changes to
a differently hashed content.  The code violates it for images: a
SetClipboard image records the hash of the decoded RGBA bytes, but the very
next poll re-encodes the unchanged OS clipboard to PNG and hashes the PNG
bytes; whenever those two hashes differ (as they do for the real SipHash
over distinct byte strings) the worker emits a ClipboardChanged for the
content it just wrote, with no OS clipboard change at all. -/
theorem c1_image_echo_leak (E : ClipExt) (st : ClipState)
    (w0 h0 w h : Nat) (png rgba png2 : Bytes)
    (hdec : E.pngToRgba png = .ok (w, h, rgba))
    (henc : E.rgbaToPng rgba w h = .ok png2)
    (hne : E.hashBytes png2 ≠ E.hashBytes rgba) :
    (pollStep E (setClipboardCommand E st (.image w0 h0 png)).1
        ⟨none, some (w, h, rgba)⟩).2
      = some (.image w h png2) := by
  have h1 : (setClipboardCommand E st (.image w0 h0 png)).1
      = { lastHash := some (E.hashBytes rgba), lastWritten := some (E.hashBytes rgba) } := by
    simp [setClipboardCommand, hdec]
  rw [h1]
  have hsn : (E.hashBytes rgba != E.hashBytes png2) = true := by
    simp only [bne_iff_ne, ne_eq]
    exact fun hh => hne hh.symm
  have hww : (some (E.hashBytes rgba) == some (E.hashBytes png2)) = false := by
    apply beq_eq_false_iff_ne.mpr
    intro hh
    exact hne (Option.some.inj hh).symm
  simp [pollStep, readClipboard, readClipboardImage, henc, pollHash, hsn, hww]

/-- C1 witness: a concrete instance of the hypotheses of the C1 theorem. -/
theorem c1_image_echo_leak_witness :
    (pollStep clipExtLeak
        (setClipboardCommand clipExtLeak ⟨none, none⟩ (.image 1 1 [7])).1
        ⟨none, some (1, 1, [0, 0, 0, 0])⟩).2
      = some (.image 1 1 [9, 9, 9, 9, 9]) :=
  c1_image_echo_leak clipExtLeak ⟨none, none⟩ 1 1 1 1 [7] [0, 0, 0, 0]
    [9, 9, 9, 9, 9] rfl rfl (by decide)

/-- C2: a ClipUpdated event whose sender_device_id equals the own device_id
results in no clipboard command and leaves the coordinator state (connected,
watching) unchanged. -/
theorem c2_self_filter (E : CoordExt) (st : CoordState) (deviceId : String)
    (clip : CurrentClip) (h : clip.senderDeviceId = deviceId) :
    onClipUpdated E st deviceId clip = (st, []) := by
  simp [onClipUpdated, h]

/-- C2 witness at a concrete event from the own device. -/
theorem c2_self_filter_witness :
    onClipUpdated coordExtW ⟨true, true⟩ "dev"
      ⟨1, "dev", .text, [], 0, 0⟩ = (⟨true, true⟩, []) :=
  c2_self_filter coordExtW ⟨true, true⟩ "dev" ⟨1, "dev", .text, [], 0, 0⟩ rfl

/-- C3 counterexample: the claim says the sleep before attempt i+1 after i
consecutive failed builds is min(2 ^ (i-1), 60) seconds, so 1 second after
the first failure; in the code the backoff is doubled at the failure and the
doubled value is slept, so the sleep before attempt 2 is 2 seconds. -/
theorem c3_backoff_counterexample :
    (sleepsFrom 1 true [false, false]).get? 1 = some (some 2)
    ∧ (2 : Nat) ≠ min (2 ^ (1 - 1)) 60 := by
  constructor
  · rfl
  · decide

/-- C3 amended: after i >= 1 consecutive failed build attempts following a
reset (program start or a successful build), the relay thread sleeps
min(2 ^ i, 60) seconds before attempt i+1; and a successful build resets the
backoff to 1 second for whatever follows. -/
theorem c3_backoff_amended :
    (∀ (first : Bool) (i : Nat) (o : Bool) (rest : List Bool), 1 ≤ i →
      (sleepsFrom 1 first (List.replicate i false ++ o :: rest)).get? i
        = some (some (min (2 ^ i) 60)))
    ∧ (∀ (b : Nat) (first : Bool) (rest : List Bool),
        sleepsFrom b first (true :: rest)
          = (if first then none else some b) :: sleepsFrom 1 false rest) := by
  constructor
  · intro first i o rest hi
    cases first with
    | false =>
      rw [sleepsFrom_get_replicate i 1 o rest, failIter_min i 1 (by norm_num)]
      norm_num
    | true =>
      obtain ⟨j, rfl⟩ : ∃ j, i = j + 1 := ⟨i - 1, by omega⟩
      have h1 : List.replicate (j + 1) false ++ o :: rest
          = false :: (List.replicate j false ++ o :: rest) := by
        simp [List.replicate_succ]
      rw [h1]
      have h2 : (sleepsFrom 1 true (false :: (List.replicate j false ++ o :: rest))).get? (j + 1)
          = (sleepsFrom (backoffStep 1 false) false (List.replicate j false ++ o :: rest)).get? j := rfl
      rw [h2, sleepsFrom_get_replicate j (backoffStep 1 false) o rest]
      have hb : backoffStep 1 false = 2 := by norm_num [backoffStep]
      rw [hb, failIter_min j 2 (by norm_num)]
      have h3 : 2 * 2 ^ j = 2 ^ (j + 1) := by
        rw [pow_succ]
        ring
      rw [h3]
  · intro b first rest
    rfl

/-- C3 witness: the amended sleep value at a concrete run with one failure
from program start. -/
theorem c3_backoff_amended_witness :
    (sleepsFrom 1 true (List.replicate 1 false ++ false :: [])).get? 1
      = some (some (min (2 ^ 1) 60)) :=
  c3_backoff_amended.1 true 1 false [] (by norm_num)

/-- C4: recipient encryption first zstd-compresses at level 3, then
age-encrypts; decryption reverses both, so whenever the external zstd and
age primitives round-trip, decrypt after encrypt returns the original
plaintext. -/
theorem c4_round_trip
    (zenc : Nat → Bytes → Except String Bytes)
    (zdec aenc adec : Bytes → Except String Bytes)
    (hz : ∀ m c, zenc 3 m = .ok c → zdec c = .ok m)
    (ha : ∀ m c, aenc m = .ok c → adec c = .ok m)
    (x e : Bytes)
    (henc : Crypto.encrypt zenc aenc x = .ok e) :
    Crypto.decrypt adec zdec e = .ok x := by
  unfold Crypto.encrypt at henc
  cases hzx : zenc 3 x with
  | error err =>
    rw [hzx] at henc
    exact Except.noConfusion henc
  | ok c =>
    rw [hzx] at henc
    unfold Crypto.decrypt
    rw [ha c e henc]
    exact hz x c hzx

/-- C4 witness: the round trip at concrete primitives and plaintext. -/
theorem c4_round_trip_witness :
    Crypto.decrypt (fun b => .ok b) (fun b => .ok b) [1, 2, 3] = .ok [1, 2, 3] :=
  c4_round_trip (fun _ b => .ok b) (fun b => .ok b) (fun b => .ok b) (fun b => .ok b)
    (fun m c hh => by injection hh with h2; rw [h2])
    (fun m c hh => by injection hh with h2; rw [h2])
    [1, 2, 3] [1, 2, 3] rfl

/-- C5 counterexample: the claim says a command issued while the relay
session is disconnected is dropped and never executed against a later
re-established connection.  In the code the command channel is unbounded and
never cleared: a command sent after the inner loop broke out on disconnect
stays queued through the rebuild and is then executed against the new
connection (generation 2, not the original 1). -/
theorem c5_queue_counterexample :
    (relayRun ⟨.inner 1, 1, []⟩
        [.disconnectBreak, .send (.createInviteCode "x"), .rebuildOk, .recv]).2
      = [(SpacetimeCommand.createInviteCode "x", 2)]
    ∧ (2 : Nat) ≠ 1 := by
  constructor
  · rfl
  · decide

/-- C5 amended: commands are never dropped by the relay thread: a send always
appends to the queue and produces no execution, the disconnect break and the
rebuild transitions leave the queue untouched, and a received command is
executed against the connection generation current at handling time. -/
theorem c5_queue_amended :
    (∀ (s : RelayState) (c : SpacetimeCommand),
      (relayStep s (.send c)).1.queue = s.queue ++ [c]
      ∧ (relayStep s (.send c)).2 = [])
    ∧ (∀ s : RelayState,
        (relayStep s .disconnectBreak).1.queue = s.queue
        ∧ (relayStep s .rebuildOk).1.queue = s.queue
        ∧ (relayStep s .rebuildFail).1.queue = s.queue)
    ∧ (∀ (s : RelayState) (g : Nat) (c : SpacetimeCommand)
          (rest : List SpacetimeCommand),
        s.phase = .inner g → s.queue = c :: rest →
        (relayStep s .recv).2 = [(c, g)]
        ∧ (relayStep s .recv).1.queue = rest) := by
  refine ⟨?_, ?_, ?_⟩
  · intro s c
    exact ⟨rfl, rfl⟩
  · intro s
    obtain ⟨ph, gg, q⟩ := s
    cases ph <;> exact ⟨rfl, rfl, rfl⟩
  · intro s g c rest hp hq
    obtain ⟨ph, gg, q⟩ := s
    dsimp at hp hq
    subst hp
    subst hq
    exact ⟨rfl, rfl⟩

/-- C5 witness: a received command is executed against the current
generation at a concrete state. -/
theorem c5_queue_amended_witness :
    (relayStep ⟨.inner 3, 3, [SpacetimeCommand.getUsername 1]⟩ .recv).2
      = [(SpacetimeCommand.getUsername 1, 3)] :=
  (c5_queue_amended.2.2 ⟨.inner 3, 3, [SpacetimeCommand.getUsername 1]⟩ 3
    (SpacetimeCommand.getUsername 1) [] rfl rfl).1

/-- C6: the claim says handle_request forwards CreateInvite as a
CreateInviteCode relay command and replies InviteCreated on success; but the
match of handle_request in src/daemon/mod.rs has no arm for
Request::CreateInvite at all, so no command is forwarded and no reply is
produced for that request, for every environment and state. -/
theorem c6_create_invite_missing (E : CoordExt) (connected : Bool)
    (userId : Nat) (deviceId : String) (watching : Bool) (code : String) :
    handleRequest E connected userId deviceId watching (.createInvite code) = none := rfl

/-- C6 witness at concrete arguments. -/
theorem c6_create_invite_missing_witness :
    handleRequest coordExtW true 7 "dev" true (.createInvite "ABC") = none :=
  c6_create_invite_missing coordExtW true 7 "dev" true "ABC"

/-- C7: a Paste request while connected, whose GetCurrentClip reply comes
from a local view with no CurrentClip row, is answered with exactly
Error with message No clip available. -/
theorem c7_paste_empty (E : CoordExt) (userId : Nat) (deviceId : String)
    (watching : Bool) (view : List CurrentClip)
    (hview : view = [])
    (hrecv : E.clipRecv = some (relayGetCurrentClip view)) :
    handleRequest E true userId deviceId watching .paste
      = some (.reply (.error "No clip available"),
          [SpacetimeCommand.getCurrentClip userId], []) := by
  subst hview
  simp only [relayGetCurrentClip, List.head?] at hrecv
  simp [handleRequest, hrecv]

/-- C7 witness at a concrete environment with an empty view. -/
theorem c7_paste_empty_witness :
    handleRequest coordExtW true 7 "dev" false .paste
      = some (.reply (.error "No clip available"),
          [SpacetimeCommand.getCurrentClip 7], []) :=
  c7_paste_empty coordExtW 7 "dev" false [] rfl rfl

/-- C8 counterexample: the claim says rgba_to_png errors whenever the buffer
length differs from 4*w*h; but ImageBuffer::from_raw only requires the
container to be big enough, so a five byte buffer for a 1 by 1 image (length
5, required 4) is accepted and encoding succeeds. -/
theorem c8_length_counterexample :
    Payload.rgba_to_png Payload.pngEncodeTotal [0, 0, 0, 255, 0] 1 1
      = .ok [1, 1, 0, 0, 0, 255, 0]
    ∧ List.length [0, 0, 0, 255, 0] ≠ 4 * 1 * 1 := by
  constructor
  · rfl
  · decide

/-- C8 amended: rgba_to_png errors exactly when the buffer is too small,
that is when its length is below 4*w*h; when the length is at least 4*w*h
the buffer is handed to the PNG encoder unchanged, and with the modelled
encoder this succeeds whenever both dimensions are nonzero. -/
theorem c8_length_amended :
    (∀ (enc : Nat → Nat → Bytes → Except String Bytes) (rgba : Bytes) (w h : Nat),
      rgba.length < 4 * w * h →
      Payload.rgba_to_png enc rgba w h = .error "Invalid RGBA data dimensions")
    ∧ (∀ (enc : Nat → Nat → Bytes → Except String Bytes) (rgba : Bytes) (w h : Nat),
        4 * w * h ≤ rgba.length →
        Payload.rgba_to_png enc rgba w h = enc w h rgba)
    ∧ (∀ (rgba : Bytes) (w h : Nat),
        4 * w * h ≤ rgba.length → 1 ≤ w → 1 ≤ h →
        Payload.rgba_to_png Payload.pngEncodeTotal rgba w h = .ok (w :: h :: rgba)) := by
  refine ⟨?_, ?_, ?_⟩
  · intro enc rgba w h hlt
    have hb : Payload.fromRawOk w h rgba = false := by
      simp [Payload.fromRawOk, Payload.imageBufferLen]
      omega
    simp [Payload.rgba_to_png, hb]
  · intro enc rgba w h hle
    have hb : Payload.fromRawOk w h rgba = true := by
      simp [Payload.fromRawOk, Payload.imageBufferLen]
      omega
    simp [Payload.rgba_to_png, hb]
  · intro rgba w h hle hw hh
    have hb : Payload.fromRawOk w h rgba = true := by
      simp [Payload.fromRawOk, Payload.imageBufferLen]
      omega
    have hw0 : w ≠ 0 := by omega
    have hh0 : h ≠ 0 := by omega
    simp [Payload.rgba_to_png, hb, Payload.pngEncodeTotal, hw0, hh0]

/-- C8 witness: the amended error case at a concrete too-small buffer. -/
theorem c8_length_amended_witness :
    Payload.rgba_to_png Payload.pngEncodeTotal [] 1 1
      = .error "Invalid RGBA data dimensions" :=
  c8_length_amended.1 Payload.pngEncodeTotal [] 1 1 (by decide)

/-- C9: a frame whose payload does not parse as a Request is answered with an
Error response and the read loop continues unconditionally; and a frame
iteration closes the connection only when the coordinator channel is closed,
as long as the socket write itself succeeds. -/
theorem c9_malformed_frame :
    (∀ (E : SockEnv) (b : Bytes) (e : String), E.parseRequest b = .error e →
      connStep E (.frame b) = ([Response.error ("Invalid request: " ++ e)], true))
    ∧ (∀ (E : SockEnv) (b : Bytes), E.writeOk = true →
        (connStep E (.frame b)).2 = false → E.coordinatorOpen = false) := by
  constructor
  · intro E b e hp
    simp [connStep, hp]
  · intro E b hw hbreak
    cases hco : E.coordinatorOpen with
    | false => rfl
    | true =>
      exfalso
      cases hpb : E.parseRequest b with
      | error e => simp [connStep, hpb] at hbreak
      | ok r => simp [connStep, hpb, hco, hw] at hbreak

/-- C9 witness: the malformed-frame behaviour at a concrete environment. -/
theorem c9_malformed_frame_witness :
    connStep sockEnvW (.frame [0]) = ([Response.error ("Invalid request: " ++ "x")], true) :=
  c9_malformed_frame.1 sockEnvW [0] "x" rfl

/-- C10: a SetClipboard command whose image payload fails PNG decoding
performs no OS clipboard write and leaves both hashes exactly as they were,
so subsequent polling starts from the same state as if the command had not
arrived. -/
theorem c10_bad_png_no_effect (E : ClipExt) (st : ClipState)
    (w h : Nat) (png : Bytes) (e : String)
    (hd : E.pngToRgba png = .error e) :
    setClipboardCommand E st (.image w h png) = (st, []) := by
  simp [setClipboardCommand, hd]

/-- C10 witness at a concrete failing decoder and state. -/
theorem c10_bad_png_no_effect_witness :
    setClipboardCommand clipExtErr ⟨some 5, some 6⟩ (.image 2 2 [9])
      = (⟨some 5, some 6⟩, []) :=
  c10_bad_png_no_effect clipExtErr ⟨some 5, some 6⟩ 2 2 [9]
    "Failed to decode PNG" rfl

end Clipsync
